import Mathlib

/-!
Shallow embedding of the SmartLoan eligibility / offer-ranking engine
(`src/app.py`) and verification of its specification claims.

Python floats are modelled as exact rationals (`ℚ`), Python ints as `ℤ`.
`round` (banker's rounding), `round(x, k)` and `int(...)` truncation are
modelled exactly by `pyRound`, `round2`/`round1` and `pyTrunc`.
-/

attribute [local semireducible] Rat.add Rat.mul Rat.inv Rat.sub Rat.ofScientific

/-- Python `round(x)` : round half to even, returning an integer. -/
def pyRound (x : ℚ) : ℤ :=
  let n := ⌊x⌋
  if x - n < 1/2 then n
  else if 1/2 < x - n then n + 1
  else if n % 2 = 0 then n else n + 1

/-- Python `int(x)` on a float: truncation toward zero. -/
def pyTrunc (x : ℚ) : ℤ :=
  if 0 ≤ x then ⌊x⌋ else ⌈x⌉

/-- Python `round(x, 2)`. -/
def round2 (x : ℚ) : ℚ := (pyRound (x * 100) : ℚ) / 100

/-- Python `round(x, 1)`. -/
def round1 (x : ℚ) : ℚ := (pyRound (x * 10) : ℚ) / 10

/-- `emi(principal, annual_rate, months)` from `src/app.py`:
`monthly_rate = annual_rate / 12 / 100`; zero-rate branch returns
`principal / months`, otherwise the compound amortization formula. -/
def emi (principal annual_rate : ℚ) (months : ℤ) : ℚ :=
  if annual_rate / 12 / 100 = 0 then principal / months
  else
    principal * (annual_rate / 12 / 100) * (1 + annual_rate / 12 / 100) ^ months /
      ((1 + annual_rate / 12 / 100) ^ months - 1)

namespace FallbackModel

/-- `FallbackModel.predict` from `src/app.py`: 1 when both the income gate
`monthly_income ≥ loan_amount / 120` and the credit gate
`credit_score ≥ 650` hold, else 0. -/
def predict (monthly_income loan_amount credit_score : ℚ) : ℤ :=
  if monthly_income ≥ loan_amount / 120 ∧ credit_score ≥ 650 then 1 else 0

/-- `FallbackModel.predict_proba` from `src/app.py`: returns the pair
`(1 - approved, approved)`. -/
def predict_proba (monthly_income loan_amount credit_score : ℚ) : ℚ × ℚ :=
  let approved :=
    min (max (0.22 + min (max ((credit_score - 500) / 360) 0) 0.53
      + min (max ((monthly_income - loan_amount / 120) / 120000) 0) 0.2) 0.05) 0.95
  (1 - approved, approved)

end FallbackModel

/-- The stability contribution to the risk score in `profile_risk`
(`src/app.py` lines 114–117). -/
def riskStabilityDelta (stability : ℚ) : ℤ :=
  if stability ≥ 0.95 then -12
  else if stability < 0.8 then 10
  else 0

/-- `profile_risk(credit_score, foir, stability)` from `src/app.py`:
additive adjustments to a base of 100, clamp to `[5, 95]`, then label. -/
def profile_risk (credit_score : ℤ) (foir stability : ℚ) : String × ℤ :=
  let s1 : ℤ := 100 +
    (if credit_score ≥ 760 then -35
     else if credit_score ≥ 700 then -22
     else if credit_score ≥ 650 then -10
     else 0)
  let s2 : ℤ := s1 +
    (if foir ≤ 0.35 then -25
     else if foir ≤ 0.45 then -15
     else if foir ≤ 0.55 then -5
     else 20)
  let s3 : ℤ := s2 + riskStabilityDelta stability
  let risk_score : ℤ := max 5 (min 95 s3)
  if risk_score ≤ 35 then ("Low", risk_score)
  else if risk_score ≤ 60 then ("Medium", risk_score)
  else ("High", risk_score)

/-- A lender catalog entry (`BANKS` rows in `src/app.py`): fields in source
order `name, base_rate, min_credit, max_foir, processing_fee`. -/
structure Bank where
  name : String
  base_rate : ℚ
  min_credit : ℤ
  max_foir : ℚ
  processing_fee : ℚ
deriving DecidableEq

/-- The applicant profile dict built in `dashboard` (`src/app.py`),
without the display-only `generated_at` timestamp. -/
structure Profile where
  full_name : String
  age : ℤ
  employment : String
  monthly_income : ℚ
  monthly_expenses : ℚ
  existing_emi : ℚ
  credit_score : ℤ
  loan_amount : ℚ
  tenure_months : ℤ
  loan_type : String
  disposable_income : ℚ
  foir : ℚ
  stability : ℚ
deriving DecidableEq

/-- One offer dict as appended by `build_offers` in `src/app.py`. -/
structure Offer where
  bank : String
  rate : ℚ
  emi : ℤ
  total_payable : ℤ
  processing_fee : ℚ
  approval : ℤ
  foir : ℚ
  tag : String
deriving DecidableEq

/-- The `BANKS` catalog of `src/app.py`, keyed by loan type. -/
def BANKS (loan_type : String) : List Bank :=
  if loan_type = "Home" then
    [⟨"SBI", 8.35, 680, 0.55, 0.6⟩, ⟨"HDFC", 8.55, 710, 0.52, 0.75⟩,
     ⟨"Axis", 8.72, 695, 0.54, 0.7⟩, ⟨"ICICI", 8.68, 700, 0.53, 0.8⟩]
  else if loan_type = "Education" then
    [⟨"SBI", 8.95, 650, 0.58, 0.5⟩, ⟨"Bank of Baroda", 9.1, 640, 0.59, 0.4⟩,
     ⟨"Axis", 9.25, 655, 0.57, 0.65⟩]
  else if loan_type = "Personal" then
    [⟨"HDFC", 11.2, 730, 0.48, 1.3⟩, ⟨"ICICI", 11.45, 725, 0.5, 1.1⟩,
     ⟨"Axis", 11.8, 710, 0.5, 1.2⟩]
  else if loan_type = "Business" then
    [⟨"HDFC", 10.45, 700, 0.55, 1.0⟩, ⟨"ICICI", 10.8, 695, 0.56, 1.1⟩,
     ⟨"Kotak", 10.95, 690, 0.57, 0.95⟩]
  else []

/-- The credit adjustment to a lender's base rate (`src/app.py` line 165). -/
def credit_adjustment (credit_score : ℤ) : ℚ :=
  if credit_score ≥ 760 then -0.35 else if credit_score ≥ 720 then -0.15 else 0.2

/-- The FOIR adjustment to a lender's base rate (`src/app.py` line 166). -/
def foir_adjustment (foir : ℚ) : ℚ :=
  if foir ≤ 0.4 then -0.1 else if foir > 0.5 then 0.25 else 0

/-- The stability adjustment to a lender's base rate (`src/app.py` line 167). -/
def stability_adjustment (stability : ℚ) : ℚ :=
  if stability ≥ 1 then -0.1 else if stability < 0.8 then 0.2 else 0

/-- `effective_rate` for one lender (`src/app.py` line 169). -/
def effectiveRate (p : Profile) (bank : Bank) : ℚ :=
  round2 (max (bank.base_rate + credit_adjustment p.credit_score +
    foir_adjustment p.foir + stability_adjustment p.stability) 7.75)

/-- `monthly_emi` for one lender (`src/app.py` line 171). -/
def monthlyEmi (p : Profile) (bank : Bank) : ℚ :=
  emi p.loan_amount (effectiveRate p bank) p.tenure_months

/-- `actual_foir` for one lender (`src/app.py` lines 172-173). -/
def actualFoir (p : Profile) (bank : Bank) : ℚ :=
  (p.existing_emi + monthlyEmi p bank) / p.monthly_income

/-- `bank_fit` for one lender (`src/app.py` lines 181-185). -/
def bankFit (p : Profile) (bank : Bank) (confidence : ℤ) : ℤ :=
  pyTrunc (max 35 (min 98
    (100 - (effectiveRate p bank - bank.base_rate) * 10
      - max (actualFoir p bank - 0.35) 0 * 120
      + ((confidence : ℚ) - 50) * 0.2)))

/-- The offer dict appended for a surviving lender (`src/app.py` lines 187-198). -/
def mkOffer (p : Profile) (bank : Bank) (confidence : ℤ) : Offer where
  bank := bank.name
  rate := effectiveRate p bank
  emi := pyRound (monthlyEmi p bank)
  total_payable := pyRound (monthlyEmi p bank * (p.tenure_months : ℚ) +
    p.loan_amount * (bank.processing_fee / 100))
  processing_fee := round2 bank.processing_fee
  approval := bankFit p bank confidence
  foir := round1 (actualFoir p bank * 100)
  tag := if effectiveRate p bank ≤ bank.base_rate then "Best Rate" else "Fast Approval"

/-- One iteration of the lender loop in `build_offers`: `none` when the
lender is skipped by the credit gate or the affordability gate. -/
def offerFor (p : Profile) (confidence : ℤ) (bank : Bank) : Option Offer :=
  if p.credit_score < bank.min_credit then none
  else if actualFoir p bank > bank.max_foir then none
  else some (mkOffer p bank confidence)

/-- The sort key of `offers.sort` (`src/app.py` line 200): lexicographic
on `(rate, -approval, emi)`. -/
def sortKeyLe (a b : Offer) : Bool :=
  decide (a.rate < b.rate ∨ (a.rate = b.rate ∧
    (-a.approval < -b.approval ∨ (-a.approval = -b.approval ∧ a.emi ≤ b.emi))))

/-- `build_offers(profile, prediction, confidence)` from `src/app.py`, with
the module-level `BANKS` table passed explicitly (spec §9 re-expresses the
catalog as an injected read-only table). Python's stable `list.sort` is
modelled by the stable `List.mergeSort`. -/
def build_offers (banks : String → List Bank) (p : Profile)
    (prediction confidence : ℤ) : List Offer :=
  if prediction ≠ 1 then []
  else ((banks p.loan_type).filterMap (offerFor p confidence)).mergeSort sortKeyLe

/-- A sample profile used to instantiate hypotheses of the claims. -/
def sampleProfile : Profile where
  full_name := "Applicant"
  age := 30
  employment := "salaried"
  monthly_income := 100000
  monthly_expenses := 20000
  existing_emi := 0
  credit_score := 700
  loan_amount := 12000
  tenure_months := 12
  loan_type := "Home"
  disposable_income := 80000
  foir := 0.3
  stability := 1

/-- A sample one-lender catalog used to instantiate hypotheses of the claims. -/
def sampleBank : Bank := ⟨"TestBank", 8, 650, 0.9, 0⟩

/-- A catalog that returns the sample lender for every loan type. -/
def sampleCatalog : String → List Bank := fun _ => [sampleBank]

/-- `EMPLOYMENT_STABILITY.get(employment, 0.8)` from `src/app.py`: the three
known employment categories, every other string defaulting to 0.8. -/
def stabilityOf (employment : String) : ℚ :=
  if employment = "salaried" then 1.0
  else if employment = "self_employed" then 0.85
  else if employment = "freelancer" then 0.75
  else 0.8

/-- `explain_profile(data, decision_confidence, risk_label)` from `src/app.py`:
sequential accumulation of reasons and cautions. -/
def explain_profile (p : Profile) (decision_confidence : ℤ) (risk_label : String) :
    List String × List String :=
  let reasons : List String := []
  let cautions : List String := []
  let reasons := if p.credit_score ≥ 740 then
      reasons ++ ["Strong credit profile increases lender trust."] else reasons
  let cautions := if p.credit_score ≥ 740 then cautions
    else if p.credit_score < 670 then
      cautions ++ ["Credit score is below preferred range for premium offers."]
    else cautions
  let reasons := if p.foir ≤ 0.4 then
      reasons ++ ["Healthy FOIR indicates manageable repayment capacity."] else reasons
  let cautions := if p.foir ≤ 0.4 then cautions
    else if p.foir > 0.55 then
      cautions ++ ["FOIR is high; lenders may reduce sanction amount."]
    else cautions
  let reasons := if p.disposable_income ≥ 0.35 * p.monthly_income then
      reasons ++ ["Disposable income supports stable EMI servicing."] else reasons
  let cautions := if decision_confidence < 55 then
      cautions ++ ["Eligibility confidence is moderate; terms may vary by lender."]
    else cautions
  let cautions := if risk_label = "High" ∧ cautions = [] then
      cautions ++ ["Overall profile is sensitive to higher loan burden."]
    else cautions
  (reasons, cautions)

/-- The validation failures flashed by `dashboard` in `src/app.py` before the
engine runs; spec §7 calls the degenerate-numeric one `InvalidProfile`. -/
inductive DashError where
  | unsupportedLoanType
  | invalidAge
  | invalidProfile
  | negativeObligations
  | invalidCreditScore
deriving DecidableEq

/-- The values `dashboard` passes to the result template. -/
structure DecisionResult where
  status : String
  confidence : ℤ
  risk_label : String
  risk_score : ℤ
  offers : List Offer
  best_offer : Option Offer
  reasons : List String
  cautions : List String
deriving DecidableEq

/-- The numerically parsed form values read by `dashboard`. -/
structure RawInput where
  full_name : String
  age : ℤ
  employment : String
  monthly_income : ℚ
  monthly_expenses : ℚ
  existing_emi : ℚ
  credit_score : ℤ
  loan_amount : ℚ
  tenure_months : ℤ
  loan_type : String
deriving DecidableEq

/-- The POST branch of `dashboard` in `src/app.py` after numeric parsing:
range validation in source order, then the evaluation pipeline (fallback
model, risk scorer, offer engine, explanation generator). Flask session
handling, form parsing and HTML rendering are out of scope (spec §1); each
flashed validation message is modelled as a distinct error value, and the
eligibility model is the fallback rules model (no `model.pkl` artifact is
present in the repository). -/
def evaluate (inp : RawInput) : Except DashError DecisionResult :=
  if inp.loan_type ∉ ["Home", "Education", "Personal", "Business"] then
    .error .unsupportedLoanType
  else if ¬(21 ≤ inp.age ∧ inp.age ≤ 65) then .error .invalidAge
  else if inp.monthly_income ≤ 0 ∨ inp.loan_amount ≤ 0 ∨ inp.tenure_months < 12 then
    .error .invalidProfile
  else if inp.monthly_expenses < 0 ∨ inp.existing_emi < 0 then
    .error .negativeObligations
  else if ¬(300 ≤ inp.credit_score ∧ inp.credit_score ≤ 900) then
    .error .invalidCreditScore
  else
    let stability := stabilityOf inp.employment
    let disposable_income :=
      max (inp.monthly_income - inp.monthly_expenses - inp.existing_emi) 0
    let baseline_emi := emi inp.loan_amount 10.0 inp.tenure_months
    let foir := (inp.existing_emi + baseline_emi) / inp.monthly_income
    let prediction :=
      FallbackModel.predict inp.monthly_income inp.loan_amount (inp.credit_score : ℚ)
    let confidence := pyRound ((FallbackModel.predict_proba inp.monthly_income
      inp.loan_amount (inp.credit_score : ℚ)).2 * 100)
    let rl := profile_risk inp.credit_score foir stability
    let profile : Profile :=
      { full_name := inp.full_name, age := inp.age, employment := inp.employment,
        monthly_income := inp.monthly_income, monthly_expenses := inp.monthly_expenses,
        existing_emi := inp.existing_emi, credit_score := inp.credit_score,
        loan_amount := inp.loan_amount, tenure_months := inp.tenure_months,
        loan_type := inp.loan_type, disposable_income := disposable_income,
        foir := foir, stability := stability }
    let offers := build_offers BANKS profile prediction confidence
    let status := if prediction = 1 ∧ offers ≠ [] then "APPROVED"
      else if prediction = 1 then "CONDITIONAL" else "REJECTED"
    let rc := explain_profile profile confidence rl.1
    .ok { status := status, confidence := confidence, risk_label := rl.1,
          risk_score := rl.2, offers := offers, best_offer := offers.head?,
          reasons := rc.1, cautions := rc.2 }

/-- A sample raw input that is valid except for its zero monthly income. -/
def zeroIncomeInput : RawInput :=
  ⟨"Applicant", 30, "salaried", 0, 0, 0, 700, 500000, 24, "Home"⟩

/-- A sample raw input with an unrecognized employment category. -/
def contractInput : RawInput :=
  ⟨"Applicant", 30, "contract", 80000, 20000, 5000, 780, 2000000, 240, "Home"⟩

/-- The ranking relation claimed for the sorted offers (C3): strictly lower
rate first; on equal rates higher approval fit first; on equal rates and
approval fits, lower-or-equal EMI first. -/
def offerPrecedesKey (a b : Offer) : Prop :=
  a.rate < b.rate ∨ (a.rate = b.rate ∧ a.approval > b.approval) ∨
    (a.rate = b.rate ∧ a.approval = b.approval ∧ a.emi ≤ b.emi)

/-- A profile for which exactly the SBI and Axis home products qualify. -/
def rankProfile : Profile where
  full_name := "Applicant"
  age := 30
  employment := "salaried"
  monthly_income := 100000
  monthly_expenses := 20000
  existing_emi := 52500
  credit_score := 700
  loan_amount := 12000
  tenure_months := 12
  loan_type := "Home"
  disposable_income := 27500
  foir := 0.45
  stability := 1

/-- C5: the fallback model's predict returns approve (1) iff
`monthly_income ≥ loan_amount/120` and `credit_score ≥ 650`. -/
theorem fallback_predict_approve_iff (monthly_income loan_amount credit_score : ℚ) :
    FallbackModel.predict monthly_income loan_amount credit_score = 1 ↔
      monthly_income ≥ loan_amount / 120 ∧ credit_score ≥ 650 := by
  unfold FallbackModel.predict
  split_ifs with h
  · simp [h]
  · simp [h]

/-- C6: with a zero annual rate the straight-line branch is taken:
`emi p 0 m = p / m` for every principal and term `m ≥ 1`; in particular
`emi 120000 0 12 = 10000`. -/
theorem emi_zero_rate :
    (∀ (p : ℚ) (m : ℤ), 1 ≤ m → emi p 0 m = p / m) ∧
      emi 120000 0 12 = 10000 := by
  constructor
  · intro p m _
    simp [emi]
  · norm_num [emi]

/-- Witness for C6 at `p = 120000`, `m = 12`. -/
theorem emi_zero_rate_witness :
    (1 : ℤ) ≤ 12 ∧ emi 120000 0 12 = 120000 / ((12 : ℤ) : ℚ) :=
  ⟨by norm_num, emi_zero_rate.1 120000 12 (by norm_num)⟩

/-- C9: `predict_proba` returns a pair summing exactly to 1, with the
approval entry clamped into `[0.05, 0.95]`. -/
theorem predict_proba_pair (monthly_income loan_amount credit_score : ℚ) :
    (FallbackModel.predict_proba monthly_income loan_amount credit_score).1 +
      (FallbackModel.predict_proba monthly_income loan_amount credit_score).2 = 1 ∧
    0.05 ≤ (FallbackModel.predict_proba monthly_income loan_amount credit_score).2 ∧
    (FallbackModel.predict_proba monthly_income loan_amount credit_score).2 ≤ 0.95 := by
  refine ⟨by simp [FallbackModel.predict_proba], ?_, ?_⟩
  · exact le_min (le_max_right _ _) (by norm_num)
  · exact min_le_right _ _

/-- C4 counterexample: at `credit_score = 650`, `foir = 0.55`,
`stability = 1` the risk label is "High", not "Medium" as claimed. -/
theorem risk_boundary_counterexample :
    profile_risk 650 (0.55) 1 = ("High", 73) ∧ ("High" : String) ≠ "Medium" := by
  constructor
  · decide
  · decide

/-- C4 amended: for `credit_score = 650`, `foir = 0.55` and every
stability coefficient in `(0, 1]`, `profile_risk` returns the label
"High" (score 73, 95 or 85 depending on the stability band). -/
theorem risk_boundary_high (s : ℚ) (h0 : 0 < s) (h1 : s ≤ 1) :
    (profile_risk 650 (0.55) s).1 = "High" := by
  have hd : riskStabilityDelta s = -12 ∨ riskStabilityDelta s = 10 ∨
      riskStabilityDelta s = 0 := by
    unfold riskStabilityDelta
    split_ifs <;> simp
  rcases hd with h | h | h <;> simp only [profile_risk, h] <;> decide

/-- Witness for the amended C4 at `s = 1`. -/
theorem risk_boundary_high_witness :
    (0 : ℚ) < 1 ∧ (1 : ℚ) ≤ 1 ∧ (profile_risk 650 (0.55) 1).1 = "High" :=
  ⟨by norm_num, by norm_num, risk_boundary_high 1 (by norm_num) (by norm_num)⟩

/-- C1: when the prediction is not approve (1), `build_offers` returns the
empty sequence for every profile, catalog and confidence value. -/
theorem build_offers_denial (banks : String → List Bank) (p : Profile)
    (prediction confidence : ℤ) (h : prediction ≠ 1) :
    build_offers banks p prediction confidence = [] := by
  simp [build_offers, h]

/-- Witness for C1 at `prediction = 0`. -/
theorem build_offers_denial_witness :
    (0 : ℤ) ≠ 1 ∧ build_offers BANKS sampleProfile 0 50 = [] :=
  ⟨by decide, build_offers_denial BANKS sampleProfile 0 50 (by decide)⟩

/-- C2: every offer returned by `build_offers` for an approved profile comes
from a lender product of the profile's loan type whose credit gate
(`credit_score ≥ min_credit`) and affordability gate
(`(existing_emi + monthly_emi) / monthly_income ≤ max_foir`) both hold,
and the offer is exactly the dict built for that lender. -/
theorem build_offers_sound (banks : String → List Bank) (p : Profile)
    (confidence : ℤ) (o : Offer) (ho : o ∈ build_offers banks p 1 confidence) :
    ∃ bank ∈ banks p.loan_type,
      p.credit_score ≥ bank.min_credit ∧
      (p.existing_emi + monthlyEmi p bank) / p.monthly_income ≤ bank.max_foir ∧
      o = mkOffer p bank confidence := by
  unfold build_offers at ho
  rw [if_neg (by simp)] at ho
  rw [List.mem_mergeSort, List.mem_filterMap] at ho
  obtain ⟨bank, hb, hf⟩ := ho
  unfold offerFor at hf
  split_ifs at hf with h1 h2
  · exact ⟨bank, hb, not_lt.mp h1, not_lt.mp h2, (Option.some_inj.mp hf).symm⟩

/-- Witness for C2: the sample profile against the one-lender catalog. -/
theorem build_offers_sound_witness :
    mkOffer sampleProfile sampleBank 50 ∈
        build_offers sampleCatalog sampleProfile 1 50 ∧
      ∃ bank ∈ sampleCatalog sampleProfile.loan_type,
        sampleProfile.credit_score ≥ bank.min_credit ∧
        (sampleProfile.existing_emi + monthlyEmi sampleProfile bank) /
            sampleProfile.monthly_income ≤ bank.max_foir ∧
        mkOffer sampleProfile sampleBank 50 = mkOffer sampleProfile bank 50 :=
  have hmem : mkOffer sampleProfile sampleBank 50 ∈
      build_offers sampleCatalog sampleProfile 1 50 := by
    unfold build_offers
    rw [if_neg (by simp), List.mem_mergeSort]
    decide
  ⟨hmem, build_offers_sound sampleCatalog sampleProfile 50 _ hmem⟩

/-- C7: a profile that is valid except that `monthly_income = 0` is rejected
by the explicit guard (the `InvalidProfile` error of spec §7) before the
FOIR division is ever reached. -/
theorem income_zero_guarded (inp : RawInput)
    (hlt : inp.loan_type ∈ ["Home", "Education", "Personal", "Business"])
    (hage : 21 ≤ inp.age ∧ inp.age ≤ 65)
    (hla : 0 < inp.loan_amount) (ht : 12 ≤ inp.tenure_months)
    (hme : 0 ≤ inp.monthly_expenses) (hde : 0 ≤ inp.existing_emi)
    (hcs : 300 ≤ inp.credit_score ∧ inp.credit_score ≤ 900)
    (hmi : inp.monthly_income = 0) :
    evaluate inp = .error .invalidProfile := by
  unfold evaluate
  rw [if_neg (not_not_intro hlt), if_neg (not_not_intro hage),
    if_pos (Or.inl (le_of_eq hmi))]

/-- Witness for C7 at the zero-income sample input. -/
theorem income_zero_guarded_witness :
    zeroIncomeInput.monthly_income = 0 ∧
      evaluate zeroIncomeInput = .error .invalidProfile :=
  ⟨rfl, income_zero_guarded zeroIncomeInput (by decide) (by decide) (by decide)
    (by decide) (by decide) (by decide) (by decide) rfl⟩

/-- C10: an employment string outside the three known categories defaults to
stability 0.8, which contributes 0 to the risk score and 0 to every lender's
rate adjustment, and the evaluation still succeeds on otherwise-valid input. -/
theorem unknown_employment_defaults (inp : RawInput)
    (he : inp.employment ∉ ["salaried", "self_employed", "freelancer"])
    (hlt : inp.loan_type ∈ ["Home", "Education", "Personal", "Business"])
    (hage : 21 ≤ inp.age ∧ inp.age ≤ 65)
    (hmi : 0 < inp.monthly_income) (hla : 0 < inp.loan_amount)
    (ht : 12 ≤ inp.tenure_months) (hme : 0 ≤ inp.monthly_expenses)
    (hde : 0 ≤ inp.existing_emi)
    (hcs : 300 ≤ inp.credit_score ∧ inp.credit_score ≤ 900) :
    stabilityOf inp.employment = 0.8 ∧
      riskStabilityDelta (stabilityOf inp.employment) = 0 ∧
      stability_adjustment (stabilityOf inp.employment) = 0 ∧
      ∃ r, evaluate inp = .ok r := by
  have hs : stabilityOf inp.employment = 0.8 := by
    simp only [List.mem_cons, List.not_mem_nil, or_false] at he
    push_neg at he
    unfold stabilityOf
    rw [if_neg he.1, if_neg he.2.1, if_neg he.2.2]
  refine ⟨hs, by rw [hs]; decide, by rw [hs]; decide, ?_⟩
  unfold evaluate
  rw [if_neg (not_not_intro hlt), if_neg (not_not_intro hage), if_neg ?h3,
    if_neg ?h4, if_neg (not_not_intro hcs)]
  · exact ⟨_, rfl⟩
  case h3 =>
    simp only [not_or, not_le, not_lt]
    exact ⟨hmi, hla, ht⟩
  case h4 =>
    simp only [not_or, not_lt]
    exact ⟨hme, hde⟩

/-- C8: for a fixed annual rate in `[0, 36]` and a fixed term `m ≥ 1`,
`emi` is strictly increasing in the principal. -/
theorem emi_strict_mono (r : ℚ) (m : ℤ) (p1 p2 : ℚ)
    (hr0 : 0 ≤ r) (hr1 : r ≤ 36) (hm : 1 ≤ m) (hp : p1 < p2) :
    emi p1 r m < emi p2 r m := by
  unfold emi
  split_ifs with h
  · have hm' : (0 : ℚ) < (m : ℚ) := by exact_mod_cast lt_of_lt_of_le one_pos hm
    exact (div_lt_div_iff_of_pos_right hm').mpr hp
  · have hr' : (0 : ℚ) < r / 12 / 100 :=
      lt_of_le_of_ne (by positivity) (Ne.symm h)
    have hf : (1 : ℚ) < (1 + r / 12 / 100) ^ m :=
      one_lt_zpow₀ (by linarith) (lt_of_lt_of_le one_pos hm)
    have hcoef : (0 : ℚ) < r / 12 / 100 * (1 + r / 12 / 100) ^ m /
        ((1 + r / 12 / 100) ^ m - 1) :=
      div_pos (mul_pos hr' (by linarith)) (by linarith)
    calc p1 * (r / 12 / 100) * (1 + r / 12 / 100) ^ m / ((1 + r / 12 / 100) ^ m - 1)
        = p1 * (r / 12 / 100 * (1 + r / 12 / 100) ^ m /
            ((1 + r / 12 / 100) ^ m - 1)) := by ring
      _ < p2 * (r / 12 / 100 * (1 + r / 12 / 100) ^ m /
            ((1 + r / 12 / 100) ^ m - 1)) := mul_lt_mul_of_pos_right hp hcoef
      _ = p2 * (r / 12 / 100) * (1 + r / 12 / 100) ^ m /
            ((1 + r / 12 / 100) ^ m - 1) := by ring

/-- Witness for C8 at `r = 12`, `m = 12`, `p1 = 100`, `p2 = 200`. -/
theorem emi_strict_mono_witness :
    (0 : ℚ) ≤ 12 ∧ (12 : ℚ) ≤ 36 ∧ (1 : ℤ) ≤ 12 ∧ (100 : ℚ) < 200 ∧
      emi 100 12 12 < emi 200 12 12 :=
  ⟨by norm_num, by norm_num, by norm_num, by norm_num,
    emi_strict_mono 12 12 100 200 (by norm_num) (by norm_num) (by norm_num)
      (by norm_num)⟩

/-- Witness for C10 at the contract-employment sample input. -/
theorem unknown_employment_defaults_witness :
    contractInput.employment ∉ ["salaried", "self_employed", "freelancer"] ∧
      (stabilityOf contractInput.employment = 0.8 ∧
        riskStabilityDelta (stabilityOf contractInput.employment) = 0 ∧
        stability_adjustment (stabilityOf contractInput.employment) = 0 ∧
        ∃ r, evaluate contractInput = .ok r) :=
  ⟨by decide, unknown_employment_defaults contractInput (by decide) (by decide)
    (by decide) (by decide) (by decide) (by decide) (by decide) (by decide)
    (by decide)⟩

theorem pyRound_intCast (n : ℤ) : pyRound (n : ℚ) = n := by
  unfold pyRound
  rw [Int.floor_intCast]
  norm_num

theorem round2_eq_self (x : ℚ) (k : ℤ) (hk : x * 100 = (k : ℚ)) :
    round2 x = x := by
  unfold round2
  rw [hk, pyRound_intCast, ← hk]
  ring

theorem credit_adjustment_mul100 (cs : ℤ) :
    ∃ m : ℤ, credit_adjustment cs * 100 = (m : ℚ) := by
  unfold credit_adjustment
  split_ifs
  · exact ⟨-35, by norm_num⟩
  · exact ⟨-15, by norm_num⟩
  · exact ⟨20, by norm_num⟩

theorem foir_adjustment_mul100 (f : ℚ) :
    ∃ m : ℤ, foir_adjustment f * 100 = (m : ℚ) := by
  unfold foir_adjustment
  split_ifs
  · exact ⟨-10, by norm_num⟩
  · exact ⟨25, by norm_num⟩
  · exact ⟨0, by norm_num⟩

theorem stability_adjustment_mul100 (s : ℚ) :
    ∃ m : ℤ, stability_adjustment s * 100 = (m : ℚ) := by
  unfold stability_adjustment
  split_ifs
  · exact ⟨-10, by norm_num⟩
  · exact ⟨20, by norm_num⟩
  · exact ⟨0, by norm_num⟩

theorem credit_adjustment_lb (cs : ℤ) : (-0.35 : ℚ) ≤ credit_adjustment cs := by
  unfold credit_adjustment
  split_ifs <;> norm_num

theorem foir_adjustment_lb (f : ℚ) : (-0.1 : ℚ) ≤ foir_adjustment f := by
  unfold foir_adjustment
  split_ifs <;> norm_num

theorem stability_adjustment_lb (s : ℚ) : (-0.1 : ℚ) ≤ stability_adjustment s := by
  unfold stability_adjustment
  split_ifs <;> norm_num

/-- On any lender whose base rate is at least 8.35 and is an exact multiple
of 0.01, the 7.75 floor and the 2-decimal rounding in `effective_rate` are
both inert: the rate is the base rate plus the three profile adjustments. -/
theorem effectiveRate_eq (p : Profile) (bank : Bank)
    (hb : (8.35 : ℚ) ≤ bank.base_rate) (hden : (bank.base_rate * 100).den = 1) :
    effectiveRate p bank = bank.base_rate + credit_adjustment p.credit_score +
      foir_adjustment p.foir + stability_adjustment p.stability := by
  obtain ⟨mc, hmc⟩ := credit_adjustment_mul100 p.credit_score
  obtain ⟨mf, hmf⟩ := foir_adjustment_mul100 p.foir
  obtain ⟨ms, hms⟩ := stability_adjustment_mul100 p.stability
  have hk : ((bank.base_rate * 100).num : ℚ) = bank.base_rate * 100 :=
    (Rat.den_eq_one_iff _).mp hden
  have hc := credit_adjustment_lb p.credit_score
  have hf := foir_adjustment_lb p.foir
  have hs := stability_adjustment_lb p.stability
  unfold effectiveRate
  rw [max_eq_left (by linarith)]
  exact round2_eq_self _ ((bank.base_rate * 100).num + mc + mf + ms)
    (by push_cast; linarith)

theorem BANKS_facts (lt : String) :
    ∀ b ∈ BANKS lt, (8.35 : ℚ) ≤ b.base_rate ∧ (b.base_rate * 100).den = 1 := by
  unfold BANKS
  split_ifs <;> decide

theorem BANKS_base_rates_distinct (lt : String) :
    (BANKS lt).Pairwise (fun b1 b2 => b1.base_rate ≠ b2.base_rate) := by
  unfold BANKS
  split_ifs <;> decide

theorem offerFor_rate (p : Profile) (confidence : ℤ) (bank : Bank) (o : Offer)
    (h : offerFor p confidence bank = some o) : o.rate = effectiveRate p bank := by
  unfold offerFor at h
  split_ifs at h
  rw [← Option.some_inj.mp h]
  rfl

/-- Two distinct offers built against the fixed `BANKS` catalog always carry
distinct effective rates: the per-profile adjustments are shared, the base
rates within one bucket are pairwise distinct, and neither the 7.75 floor
nor the rounding can merge them. -/
theorem build_offers_rates_distinct (p : Profile) (confidence : ℤ) :
    (build_offers BANKS p 1 confidence).Pairwise (fun a b => a.rate ≠ b.rate) := by
  unfold build_offers
  rw [if_neg (by simp)]
  refine ((List.mergeSort_perm _ sortKeyLe).symm).pairwise ?_ (fun h => h.symm)
  rw [List.pairwise_filterMap]
  refine (BANKS_base_rates_distinct p.loan_type).imp_of_mem ?_
  intro b1 b2 hm1 hm2 hne o ho o' hp
  rw [offerFor_rate p confidence b1 o ho, offerFor_rate p confidence b2 o' hp]
  obtain ⟨hb1, hd1⟩ := BANKS_facts p.loan_type b1 hm1
  obtain ⟨hb2, hd2⟩ := BANKS_facts p.loan_type b2 hm2
  rw [effectiveRate_eq p b1 hb1 hd1, effectiveRate_eq p b2 hb2 hd2]
  intro hEq
  exact hne (by linarith)

theorem sortKeyLe_trans (a b c : Offer) (hab : sortKeyLe a b = true)
    (hbc : sortKeyLe b c = true) : sortKeyLe a c = true := by
  simp only [sortKeyLe, decide_eq_true_eq] at *
  rcases hab with h1 | ⟨h1, h2⟩ <;> rcases hbc with h3 | ⟨h3, h4⟩
  · exact Or.inl (h1.trans h3)
  · exact Or.inl (h3 ▸ h1)
  · exact Or.inl (h1 ▸ h3)
  · refine Or.inr ⟨h1.trans h3, ?_⟩
    rcases h2 with h5 | ⟨h5, h6⟩ <;> rcases h4 with h7 | ⟨h7, h8⟩
    · exact Or.inl (h5.trans h7)
    · exact Or.inl (h7 ▸ h5)
    · exact Or.inl (h5 ▸ h7)
    · exact Or.inr ⟨h5.trans h7, h6.trans h8⟩

theorem sortKeyLe_total (a b : Offer) : sortKeyLe a b || sortKeyLe b a := by
  simp only [sortKeyLe, Bool.or_eq_true, decide_eq_true_eq]
  rcases lt_trichotomy a.rate b.rate with h | h | h
  · exact Or.inl (Or.inl h)
  · rcases lt_trichotomy a.approval b.approval with h2 | h2 | h2
    · exact Or.inr (Or.inr ⟨h.symm, Or.inl (by omega)⟩)
    · rcases le_total a.emi b.emi with h3 | h3
      · exact Or.inl (Or.inr ⟨h, Or.inr ⟨by omega, h3⟩⟩)
      · exact Or.inr (Or.inr ⟨h.symm, Or.inr ⟨by omega, h3⟩⟩)
    · exact Or.inl (Or.inr ⟨h, Or.inl (by omega)⟩)
  · exact Or.inr (Or.inl h)

theorem build_offers_key_sorted (banks : String → List Bank) (p : Profile)
    (confidence : ℤ) :
    (build_offers banks p 1 confidence).Pairwise
      (fun a b => sortKeyLe a b = true) := by
  unfold build_offers
  rw [if_neg (by simp)]
  exact List.sorted_mergeSort sortKeyLe_trans sortKeyLe_total _

/-- C3: among the offers built against the fixed catalog, the offer at an
earlier position relates to every later one exactly by the three-key
ranking order (rate ascending, approval fit descending, EMI ascending). -/
theorem build_offers_ranking (p : Profile) (confidence : ℤ) (i j : ℕ)
    (a b : Offer)
    (ha : (build_offers BANKS p 1 confidence)[i]? = some a)
    (hb : (build_offers BANKS p 1 confidence)[j]? = some b)
    (hij : i ≠ j) : (i < j ↔ offerPrecedesKey a b) := by
  obtain ⟨hi, rfl⟩ := List.getElem?_eq_some.mp ha
  obtain ⟨hj, rfl⟩ := List.getElem?_eq_some.mp hb
  set l := build_offers BANKS p 1 confidence with hl
  have hsorted := List.pairwise_iff_get.mp (build_offers_key_sorted BANKS p confidence)
  have hdist := List.pairwise_iff_get.mp (build_offers_rates_distinct p confidence)
  have key : ∀ (i2 j2 : Fin l.length), i2 < j2 →
      (l.get i2).rate < (l.get j2).rate := by
    intro i2 j2 hlt
    have h1 := hsorted i2 j2 hlt
    have h2 := hdist i2 j2 hlt
    simp only [sortKeyLe, decide_eq_true_eq] at h1
    rcases h1 with h | ⟨heq, -⟩
    · exact h
    · exact absurd heq h2
  constructor
  · intro hlt
    exact Or.inl (key ⟨i, hi⟩ ⟨j, hj⟩ hlt)
  · intro hpre
    rcases Nat.lt_trichotomy i j with h | h | h
    · exact h
    · exact absurd h hij
    · exfalso
      have hji := key ⟨j, hj⟩ ⟨i, hi⟩ h
      rcases hpre with h1 | ⟨h1, -⟩ | ⟨h1, -⟩
      · exact lt_asymm h1 hji
      · exact lt_irrefl _ (h1 ▸ hji)
      · exact lt_irrefl _ (h1 ▸ hji)

/-- Witness for C3: the rank profile qualifies for exactly the SBI and Axis
home products, in that order. -/
theorem build_offers_ranking_witness :
    (build_offers BANKS rankProfile 1 60)[0]? =
        some (mkOffer rankProfile ⟨"SBI", 8.35, 680, 0.55, 0.6⟩ 60) ∧
      (build_offers BANKS rankProfile 1 60)[1]? =
        some (mkOffer rankProfile ⟨"Axis", 8.72, 695, 0.54, 0.7⟩ 60) ∧
      (0 : ℕ) ≠ 1 ∧
      ((0 : ℕ) < 1 ↔
        offerPrecedesKey (mkOffer rankProfile ⟨"SBI", 8.35, 680, 0.55, 0.6⟩ 60)
          (mkOffer rankProfile ⟨"Axis", 8.72, 695, 0.54, 0.7⟩ 60)) := by
  have hlist : build_offers BANKS rankProfile 1 60 =
      [mkOffer rankProfile ⟨"SBI", 8.35, 680, 0.55, 0.6⟩ 60,
       mkOffer rankProfile ⟨"Axis", 8.72, 695, 0.54, 0.7⟩ 60] := by
    unfold build_offers
    rw [if_neg (by simp)]
    have hfm : (BANKS rankProfile.loan_type).filterMap (offerFor rankProfile 60) =
        [mkOffer rankProfile ⟨"SBI", 8.35, 680, 0.55, 0.6⟩ 60,
         mkOffer rankProfile ⟨"Axis", 8.72, 695, 0.54, 0.7⟩ 60] := by decide
    rw [hfm]
    exact List.mergeSort_of_sorted (by decide)
  have h0 : (build_offers BANKS rankProfile 1 60)[0]? =
      some (mkOffer rankProfile ⟨"SBI", 8.35, 680, 0.55, 0.6⟩ 60) := by
    rw [hlist]
    rfl
  have h1 : (build_offers BANKS rankProfile 1 60)[1]? =
      some (mkOffer rankProfile ⟨"Axis", 8.72, 695, 0.54, 0.7⟩ 60) := by
    rw [hlist]
    rfl
  exact ⟨h0, h1, by decide,
    build_offers_ranking rankProfile 60 0 1 _ _ h0 h1 (by decide)⟩
